import Mathlib

/-!
Verification of the core counting logic of `wsbc_script.py` /
`test_wsbc_script.py` (Wet Section Buffer Counter).

The program polls four digital sensor channels. Each channel keeps a
"detected/held" flag and a "release timestamp"; a rising edge marks the
channel held and counts (+1 or -1 on one of two running sums, the
decrement clamped at zero) only when the time since the last release is
at least the configured cooldown. A falling edge records the release
time and clears the flag. After processing all four channels the script
notifies three display widgets (total, OHB sum, WS sum), each only when
its value changed since the previous report.

Timestamps and sums are Python `int`s, embedded as `Int`.
-/

namespace WSBC

/-- Per-channel debounce state: the `sig_*_detected` flag and the
`timer_*` release timestamp of the script (initialised `False` / `0`). -/
structure ChannelState where
  is_held : Bool
  last_release_time : Int
  deriving Repr, DecidableEq

/-- One channel's block of `read_inputs_and_update` in `wsbc_script.py`
(lines 290-301 for channel 1; channels 2-4 are identical in shape):

    if s == 1 and not sig_detected:
        sig_detected = True
        if (now_ms - timer) >= SENSOR_DELAY:
            <count>
    elif s != 1 and sig_detected:
        timer = now_ms
        sig_detected = False

Returns the updated state together with the emit flag (`true` exactly
when the `<count>` line is reached). The clamped application of the
count to the running sum is done by the scheduler, as in the source. -/
def stepChannel (cooldown : Int) (raw : Bool) (now : Int) (s : ChannelState) :
    ChannelState × Bool :=
  if raw ∧ ¬ s.is_held then
    ({ is_held := true, last_release_time := s.last_release_time },
      decide (now - s.last_release_time ≥ cooldown))
  else if ¬ raw ∧ s.is_held then
    ({ is_held := false, last_release_time := now }, false)
  else
    (s, false)

/-- The same per-channel block as it appears in `test_wsbc_script.py`
(lines 551-557 for channel 1, with the per-channel `*_DELAY_MS`
constant in place of the shared `SENSOR_DELAY`):

    if s == 1 and not sig_detected:
        sig_detected = True
        if (now_ms - timer) >= OHB_ADD_DELAY_MS:
            <count>
    elif s != 1 and sig_detected:
        timer = now_ms
        sig_detected = False
-/
def stepChannelTest (cooldown : Int) (raw : Bool) (now : Int) (s : ChannelState) :
    ChannelState × Bool :=
  if raw ∧ ¬ s.is_held then
    ({ is_held := true, last_release_time := s.last_release_time },
      decide (now - s.last_release_time ≥ cooldown))
  else if ¬ raw ∧ s.is_held then
    ({ is_held := false, last_release_time := now }, false)
  else
    (s, false)

/-- Run one channel over a list of (raw sample, timestamp) pairs,
one pair per tick; returns the final state and the number of emitted
count events. -/
def runChannel (cooldown : Int) (s : ChannelState) :
    List (Bool × Int) → ChannelState × Nat
  | [] => (s, 0)
  | (raw, now) :: rest =>
    let r := stepChannel cooldown raw now s
    let rec' := runChannel cooldown r.fst rest
    (rec'.fst, (if r.snd then 1 else 0) + rec'.snd)

/-- `SENSOR_DELAY = 1000` in `wsbc_script.py`. -/
def SENSOR_DELAY : Int := 1000

/-- `POLL_INTERVAL_MS = 10` (both scripts). -/
def POLL_INTERVAL_MS : Int := 10

/-- `OHB_ADD_DELAY_MS = 1000` in `test_wsbc_script.py`. -/
def OHB_ADD_DELAY_MS : Int := 1000

/-- `OHB_SUB_DELAY_MS = 1000` in `test_wsbc_script.py`. -/
def OHB_SUB_DELAY_MS : Int := 1000

/-- `WS_ADD_DELAY_MS = 1000` in `test_wsbc_script.py`. -/
def WS_ADD_DELAY_MS : Int := 1000

/-- `WS_SUB_DELAY_MS = 1000` in `test_wsbc_script.py`. -/
def WS_SUB_DELAY_MS : Int := 1000

/-- Delay passed to `main.after` for the next poll: on a hardware read
failure the scripts call `main.after(max(200, POLL_INTERVAL_MS), ...)`,
on success `main.after(POLL_INTERVAL_MS, ...)`. -/
def nextDelay (readOk : Bool) (pollInterval : Int) : Int :=
  if readOk then pollInterval else max 200 pollInterval

/-- The four raw samples `s1..s4` read from the HAT in one tick
(`rel.get_in(...) == 1` embedded as a `Bool`). -/
structure Samples where
  s1 : Bool
  s2 : Bool
  s3 : Bool
  s4 : Bool
  deriving Repr, DecidableEq

/-- Per-channel cooldown configuration. `wsbc_script.py` uses
`SENSOR_DELAY` for all four; `test_wsbc_script.py` uses the four
`*_DELAY_MS` constants. -/
structure Config where
  cd1 : Int
  cd2 : Int
  cd3 : Int
  cd4 : Int
  deriving Repr, DecidableEq

/-- The script's global mutable state: the two running sums, the three
previously-reported display values, and the four channel states. -/
structure SysState where
  sum_ohb : Int
  sum_ws : Int
  prev_total : Int
  prev_ohb : Int
  prev_ws : Int
  ch_ohb_add : ChannelState
  ch_ohb_sub : ChannelState
  ch_ws_add : ChannelState
  ch_ws_sub : ChannelState
  deriving Repr, DecidableEq

/-- Initial globals: sums `0`, `prev_* = -1`, all flags `False`,
all timers `0`. -/
def initState : SysState :=
  { sum_ohb := 0, sum_ws := 0, prev_total := -1, prev_ohb := -1, prev_ws := -1,
    ch_ohb_add := ⟨false, 0⟩, ch_ohb_sub := ⟨false, 0⟩,
    ch_ws_add := ⟨false, 0⟩, ch_ws_sub := ⟨false, 0⟩ }

/-- Which display widget a `set_value` call targets. -/
inductive Display where
  | total
  | ohb
  | ws
  deriving Repr, DecidableEq

/-- The four channel blocks of `read_inputs_and_update` (lines 286-336
of `wsbc_script.py`), applied in source order OHB_ADD, OHB_SUB, WS_ADD,
WS_SUB, each block reading the sums as left by the previous one; the
subtract channels clamp at zero (`if sum > 0: sum -= 1`). The `prev_*`
fields are untouched here. -/
def tickChannels (cfg : Config) (smp : Samples) (now : Int) (st : SysState) :
    SysState :=
  let r1 := stepChannel cfg.cd1 smp.s1 now st.ch_ohb_add
  let ohb1 := if r1.snd then st.sum_ohb + 1 else st.sum_ohb
  let r2 := stepChannel cfg.cd2 smp.s2 now st.ch_ohb_sub
  let ohb2 := if r2.snd then (if ohb1 > 0 then ohb1 - 1 else ohb1) else ohb1
  let r3 := stepChannel cfg.cd3 smp.s3 now st.ch_ws_add
  let ws1 := if r3.snd then st.sum_ws + 1 else st.sum_ws
  let r4 := stepChannel cfg.cd4 smp.s4 now st.ch_ws_sub
  let ws2 := if r4.snd then (if ws1 > 0 then ws1 - 1 else ws1) else ws1
  { st with
    sum_ohb := ohb2, sum_ws := ws2,
    ch_ohb_add := r1.fst, ch_ohb_sub := r2.fst,
    ch_ws_add := r3.fst, ch_ws_sub := r4.fst }

/-- One full `read_inputs_and_update` tick. `read` is the outcome of the
`try: s1..s4 = rel.get_in(...)` block: `none` when it raised (the
function returns at once, touching no state and calling no widget),
`some` the four samples otherwise. Returns the new state and the list of
`set_value` calls issued, in source order (total card, OHB card, WS
card), each guarded by comparison with the corresponding `prev_*`. -/
def tick (cfg : Config) (read : Option Samples) (now : Int) (st : SysState) :
    SysState × List (Display × Int) :=
  match read with
  | none => (st, [])
  | some smp =>
    let m := tickChannels cfg smp now st
    let total := m.sum_ohb + m.sum_ws
    let n1 : List (Display × Int) :=
      if total ≠ st.prev_total then [(Display.total, total)] else []
    let n2 : List (Display × Int) :=
      if m.sum_ohb ≠ st.prev_ohb then [(Display.ohb, m.sum_ohb)] else []
    let n3 : List (Display × Int) :=
      if m.sum_ws ≠ st.prev_ws then [(Display.ws, m.sum_ws)] else []
    let pt := if total ≠ st.prev_total then total else st.prev_total
    let po := if m.sum_ohb ≠ st.prev_ohb then m.sum_ohb else st.prev_ohb
    let pw := if m.sum_ws ≠ st.prev_ws then m.sum_ws else st.prev_ws
    ({ m with prev_total := pt, prev_ohb := po, prev_ws := pw }, n1 ++ n2 ++ n3)

/-- Run the polling loop over a list of `(read outcome, timestamp)`
tick inputs, threading the state. -/
def runTicks (cfg : Config) (st : SysState) :
    List (Option Samples × Int) → SysState
  | [] => st
  | (r, t) :: rest => runTicks cfg (tick cfg r t st).fst rest

/-! ## Basic per-channel lemmas -/

/-- After processing a sample, the held flag equals that sample. -/
theorem stepChannel_held_eq (cooldown : Int) (raw : Bool) (now : Int)
    (s : ChannelState) :
    (stepChannel cooldown raw now s).fst.is_held = raw := by
  rcases s with ⟨h, t⟩
  cases raw <;> cases h <;> simp [stepChannel]

/-- A high sample on an already-held channel is a no-op. -/
theorem stepChannel_noop_of_held (cooldown now : Int) (s : ChannelState)
    (h : s.is_held = true) :
    stepChannel cooldown true now s = (s, false) := by
  simp [stepChannel, h]

/-- A low sample never emits an event. -/
theorem stepChannel_low_no_emit (cooldown now : Int) (s : ChannelState) :
    (stepChannel cooldown false now s).snd = false := by
  rcases s with ⟨h, t⟩
  cases h <;> simp [stepChannel]

/-- A rising edge with the cooldown elapsed: hold the channel, emit. -/
theorem stepChannel_emit (cooldown now : Int) (s : ChannelState)
    (h : s.is_held = false) (hc : cooldown ≤ now - s.last_release_time) :
    stepChannel cooldown true now s = (⟨true, s.last_release_time⟩, true) := by
  rcases s with ⟨hh, t⟩
  simp_all [stepChannel]

/-- A held channel fed only high samples stays put and emits nothing. -/
theorem runChannel_true_of_held (cooldown : Int) (s : ChannelState)
    (h : s.is_held = true) (ts : List Int) :
    runChannel cooldown s (ts.map fun t => (true, t)) = (s, 0) := by
  induction ts with
  | nil => simp [runChannel]
  | cons t ts ih => simp [runChannel, stepChannel_noop_of_held _ _ _ h, ih]

/-! ## Claims about the debouncer -/

/-- Claim C1, counterexample: with the configured cooldown
`SENSOR_DELAY = 1000`, a fresh channel (`is_held = false`,
`last_release_time = 0`) processing an active sample at `now_ms = 0`
(which is `≥ 0`) emits no event: `0 - 0 >= 1000` fails. -/
theorem first_activation_at_zero_not_counted :
    (stepChannel SENSOR_DELAY true 0 ⟨false, 0⟩).snd = false := by decide

/-- Claim C1, amended: for a fresh Channel Debounce State the first
processing of an active sample at timestamp `now_ms` emits a counted
event whenever `now_ms ≥ cooldown_duration` (in particular for
wall-clock epoch timestamps, which dwarf any realistic cooldown). -/
theorem first_activation_counts (cooldown now : Int) (h : cooldown ≤ now) :
    (stepChannel cooldown true now ⟨false, 0⟩).snd = true := by
  simp [stepChannel]
  omega

theorem first_activation_counts_witness :
    (1000 : Int) ≤ 1700000000000 ∧
    (stepChannel 1000 true 1700000000000 ⟨false, 0⟩).snd = true :=
  ⟨by decide, first_activation_counts 1000 1700000000000 (by decide)⟩

/-- Claim C2, counterexample: the per-channel step functions embedded
from `wsbc_script.py` and `test_wsbc_script.py` are the same function,
so no input sequence with equal cooldown configuration distinguishes
them; both consume a suppressed activation at the rising edge. -/
theorem stepChannel_eq_stepChannelTest : stepChannel = stepChannelTest := rfl

/-- Claim C2, amended: the two variants' per-channel step functions are
extensionally equal — on every cooldown, raw sample, timestamp and
state they produce the same next state and the same event decision.
The variants differ only in configuration style (a single shared
`SENSOR_DELAY` versus four per-channel `*_DELAY_MS` constants, all
equal to 1000) and in the added trend graph, not in debounce
behaviour: both treat a suppressed activation as consumed at the
rising edge. -/
theorem stepChannel_agrees_stepChannelTest (cooldown : Int) (raw : Bool)
    (now : Int) (s : ChannelState) :
    stepChannel cooldown raw now s = stepChannelTest cooldown raw now s := rfl

/-- Claim C3: after a release recorded at `t0`, a rising sample at `t1`
with `t1 - t0 < cooldown` emits nothing, and no later sample while the
channel stays continuously high ever emits — even long after the
cooldown has elapsed. -/
theorem cooldown_gate_no_retrigger (cooldown t0 t1 : Int) (ts : List Int)
    (h : t1 - t0 < cooldown) :
    (stepChannel cooldown true t1 ⟨false, t0⟩).snd = false ∧
    (runChannel cooldown (stepChannel cooldown true t1 ⟨false, t0⟩).fst
      (ts.map fun t => (true, t))).snd = 0 := by
  have hstep : stepChannel cooldown true t1 ⟨false, t0⟩ = (⟨true, t0⟩, false) := by
    simp [stepChannel]
    omega
  rw [hstep]
  exact ⟨rfl, by rw [runChannel_true_of_held cooldown ⟨true, t0⟩ rfl ts]⟩

theorem cooldown_gate_no_retrigger_witness :
    (500 : Int) - 20 < 1000 ∧
    ((stepChannel 1000 true 500 ⟨false, 20⟩).snd = false ∧
     (runChannel 1000 (stepChannel 1000 true 500 ⟨false, 20⟩).fst
       ([1200, 2000].map fun t => (true, t))).snd = 0) :=
  ⟨by decide, cooldown_gate_no_retrigger 1000 20 500 [1200, 2000] (by decide)⟩

/-- Claim C5: from a released state whose cooldown has elapsed at `t0`,
the sample sequence `[true, true, true, false]` emits exactly one
event, on the first `true`. -/
theorem single_count_per_hold (cooldown lrt t0 t1 t2 t3 : Int)
    (h : cooldown ≤ t0 - lrt) :
    (stepChannel cooldown true t0 ⟨false, lrt⟩).snd = true ∧
    (runChannel cooldown ⟨false, lrt⟩
      [(true, t0), (true, t1), (true, t2), (false, t3)]).snd = 1 := by
  have hstep : stepChannel cooldown true t0 ⟨false, lrt⟩ = (⟨true, lrt⟩, true) :=
    stepChannel_emit cooldown t0 ⟨false, lrt⟩ rfl (by simpa using h)
  refine ⟨by rw [hstep], ?_⟩
  simp [runChannel, hstep, stepChannel]
  omega

theorem single_count_per_hold_witness :
    (1000 : Int) ≤ 1000 - 0 ∧
    ((stepChannel 1000 true 1000 ⟨false, 0⟩).snd = true ∧
     (runChannel 1000 ⟨false, 0⟩
       [(true, 1000), (true, 1010), (true, 1020), (false, 1030)]).snd = 1) :=
  ⟨by decide, single_count_per_hold 1000 0 1000 1010 1020 1030 (by decide)⟩

/-- Claim C8: after every processed sample, the held flag is true iff
the most recently processed raw sample was active — over any sample
trace, from any starting state (in particular the initial one). -/
theorem held_iff_last_sample_active (cooldown : Int) (s : ChannelState)
    (l : List (Bool × Int)) (raw : Bool) (now : Int) :
    (runChannel cooldown s (l ++ [(raw, now)])).fst.is_held = raw := by
  induction l generalizing s with
  | nil => simp [runChannel, stepChannel_held_eq]
  | cons p l ih =>
    rcases p with ⟨r, t⟩
    simp [runChannel, ih]

/-! ## Claims about the scheduler tick -/

/-- Claim C4: a tick whose hardware read raises leaves every piece of
state — both sums, all four channel states (held flags and release
timestamps), and the previously-reported display triple — exactly as it
was, and issues no display notification. -/
theorem read_failure_atomic (cfg : Config) (now : Int) (st : SysState) :
    (tick cfg none now st).fst.sum_ohb = st.sum_ohb ∧
    (tick cfg none now st).fst.sum_ws = st.sum_ws ∧
    (tick cfg none now st).fst.ch_ohb_add = st.ch_ohb_add ∧
    (tick cfg none now st).fst.ch_ohb_sub = st.ch_ohb_sub ∧
    (tick cfg none now st).fst.ch_ws_add = st.ch_ws_add ∧
    (tick cfg none now st).fst.ch_ws_sub = st.ch_ws_sub ∧
    (tick cfg none now st).fst.prev_total = st.prev_total ∧
    (tick cfg none now st).fst.prev_ohb = st.prev_ohb ∧
    (tick cfg none now st).fst.prev_ws = st.prev_ws ∧
    (tick cfg none now st).snd = [] :=
  ⟨rfl, rfl, rfl, rfl, rfl, rfl, rfl, rfl, rfl, rfl⟩

/-- Claim C9: on a failed hardware read the rescheduling delay is
`max(200, POLL_INTERVAL_MS)`, hence at least 200 ms for every
configured poll interval; with the configured `POLL_INTERVAL_MS = 10`
it is the 200 ms fallback, not the normal 10 ms interval, which is
used only on success. -/
theorem failure_backoff :
    (∀ p : Int, 200 ≤ nextDelay false p) ∧
    nextDelay false POLL_INTERVAL_MS = 200 ∧
    nextDelay true POLL_INTERVAL_MS = POLL_INTERVAL_MS := by
  refine ⟨fun p => ?_, by decide, rfl⟩
  simp only [nextDelay, if_neg Bool.false_ne_true]
  exact le_max_left 200 p

/-- The channel phase keeps both sums non-negative. -/
theorem tickChannels_nonneg (cfg : Config) (smp : Samples) (now : Int)
    (st : SysState) (h1 : 0 ≤ st.sum_ohb) (h2 : 0 ≤ st.sum_ws) :
    0 ≤ (tickChannels cfg smp now st).sum_ohb ∧
    0 ≤ (tickChannels cfg smp now st).sum_ws := by
  simp only [tickChannels]
  constructor <;> (split_ifs <;> omega)

/-- The non-negativity invariant is preserved along any run. -/
theorem runTicks_nonneg (cfg : Config) (inputs : List (Option Samples × Int)) :
    ∀ st : SysState, 0 ≤ st.sum_ohb → 0 ≤ st.sum_ws →
      0 ≤ (runTicks cfg st inputs).sum_ohb ∧
      0 ≤ (runTicks cfg st inputs).sum_ws := by
  induction inputs with
  | nil => exact fun st h1 h2 => ⟨h1, h2⟩
  | cons p rest ih =>
    intro st h1 h2
    rcases p with ⟨r, t⟩
    show 0 ≤ (runTicks cfg (tick cfg r t st).fst rest).sum_ohb ∧
      0 ≤ (runTicks cfg (tick cfg r t st).fst rest).sum_ws
    cases r with
    | none => exact ih st h1 h2
    | some smp =>
      have h := tickChannels_nonneg cfg smp t st h1 h2
      exact ih _ h.1 h.2

/-- Claim C6: starting from the initial state, both running sums are
non-negative after every tick of every input sequence; and a decrement
event arriving while `sum_ohb = 0` (here: only the OHB subtract channel
fires, past its cooldown) leaves `sum_ohb` at `0` — the decrement is
silently discarded, never producing a negative value or an error. -/
theorem sums_nonneg (cfg : Config) (inputs : List (Option Samples × Int))
    (now : Int) (st : SysState)
    (hz : st.sum_ohb = 0)
    (hheld : st.ch_ohb_sub.is_held = false)
    (hcd : cfg.cd2 ≤ now - st.ch_ohb_sub.last_release_time) :
    (0 ≤ (runTicks cfg initState inputs).sum_ohb ∧
     0 ≤ (runTicks cfg initState inputs).sum_ws) ∧
    (tick cfg (some ⟨false, true, false, false⟩) now st).fst.sum_ohb = 0 := by
  refine ⟨runTicks_nonneg cfg inputs initState le_rfl le_rfl, ?_⟩
  have e2 : stepChannel cfg.cd2 true now st.ch_ohb_sub =
      (⟨true, st.ch_ohb_sub.last_release_time⟩, true) :=
    stepChannel_emit _ _ _ hheld hcd
  have e1 : (stepChannel cfg.cd1 false now st.ch_ohb_add).snd = false :=
    stepChannel_low_no_emit _ _ _
  show (tickChannels cfg ⟨false, true, false, false⟩ now st).sum_ohb = 0
  simp only [tickChannels, e1, e2]
  simp [hz]

theorem sums_nonneg_witness :
    (initState.sum_ohb = 0 ∧ initState.ch_ohb_sub.is_held = false ∧
     (1000 : Int) ≤ 1000 - initState.ch_ohb_sub.last_release_time) ∧
    ((0 ≤ (runTicks ⟨1000, 1000, 1000, 1000⟩ initState
        [(some ⟨true, true, true, true⟩, 1000)]).sum_ohb ∧
      0 ≤ (runTicks ⟨1000, 1000, 1000, 1000⟩ initState
        [(some ⟨true, true, true, true⟩, 1000)]).sum_ws) ∧
     (tick ⟨1000, 1000, 1000, 1000⟩ (some ⟨false, true, false, false⟩)
        1000 initState).fst.sum_ohb = 0) :=
  ⟨⟨rfl, rfl, by decide⟩,
    sums_nonneg ⟨1000, 1000, 1000, 1000⟩ [(some ⟨true, true, true, true⟩, 1000)]
      1000 initState rfl rfl (by decide)⟩

/-- Claim C10: the four channel blocks run in source order OHB_ADD,
OHB_SUB, WS_ADD, WS_SUB. With `sum_ohb = sum_ws = 0` and all four
channels released past their cooldowns, a tick in which all four
sensors read high ends with both sums still `0`: each increment is
applied before its group's decrement, so the decrement is not
clamped. -/
theorem channels_applied_in_order (cfg : Config) (now : Int) (st : SysState)
    (h1 : st.sum_ohb = 0) (h2 : st.sum_ws = 0)
    (ha1 : st.ch_ohb_add.is_held = false)
    (ha2 : cfg.cd1 ≤ now - st.ch_ohb_add.last_release_time)
    (hb1 : st.ch_ohb_sub.is_held = false)
    (hb2 : cfg.cd2 ≤ now - st.ch_ohb_sub.last_release_time)
    (hc1 : st.ch_ws_add.is_held = false)
    (hc2 : cfg.cd3 ≤ now - st.ch_ws_add.last_release_time)
    (hd1 : st.ch_ws_sub.is_held = false)
    (hd2 : cfg.cd4 ≤ now - st.ch_ws_sub.last_release_time) :
    (tick cfg (some ⟨true, true, true, true⟩) now st).fst.sum_ohb = 0 ∧
    (tick cfg (some ⟨true, true, true, true⟩) now st).fst.sum_ws = 0 := by
  have e1 := stepChannel_emit cfg.cd1 now st.ch_ohb_add ha1 ha2
  have e2 := stepChannel_emit cfg.cd2 now st.ch_ohb_sub hb1 hb2
  have e3 := stepChannel_emit cfg.cd3 now st.ch_ws_add hc1 hc2
  have e4 := stepChannel_emit cfg.cd4 now st.ch_ws_sub hd1 hd2
  constructor
  · show (tickChannels cfg ⟨true, true, true, true⟩ now st).sum_ohb = 0
    simp only [tickChannels, e1, e2, e3, e4, h1]
    norm_num
  · show (tickChannels cfg ⟨true, true, true, true⟩ now st).sum_ws = 0
    simp only [tickChannels, e1, e2, e3, e4, h2]
    norm_num

theorem channels_applied_in_order_witness :
    (initState.sum_ohb = 0 ∧ initState.sum_ws = 0) ∧
    ((tick ⟨1000, 1000, 1000, 1000⟩ (some ⟨true, true, true, true⟩)
        1000 initState).fst.sum_ohb = 0 ∧
     (tick ⟨1000, 1000, 1000, 1000⟩ (some ⟨true, true, true, true⟩)
        1000 initState).fst.sum_ws = 0) :=
  ⟨⟨rfl, rfl⟩,
    channels_applied_in_order ⟨1000, 1000, 1000, 1000⟩ 1000 initState rfl rfl
      rfl (by decide) rfl (by decide) rfl (by decide) rfl (by decide)⟩

/-! ## Change-only display notification -/

/-- After a successful tick, the stored previously-reported OHB value
equals the current OHB sum. -/
theorem tick_prev_ohb (cfg : Config) (smp : Samples) (now : Int)
    (st : SysState) :
    (tick cfg (some smp) now st).fst.prev_ohb =
    (tick cfg (some smp) now st).fst.sum_ohb := by
  show (if (tickChannels cfg smp now st).sum_ohb ≠ st.prev_ohb
        then (tickChannels cfg smp now st).sum_ohb else st.prev_ohb) =
      (tickChannels cfg smp now st).sum_ohb
  split_ifs with h
  · rfl
  · exact (not_ne_iff.mp h).symm

/-- After a successful tick, the stored previously-reported WS value
equals the current WS sum. -/
theorem tick_prev_ws (cfg : Config) (smp : Samples) (now : Int)
    (st : SysState) :
    (tick cfg (some smp) now st).fst.prev_ws =
    (tick cfg (some smp) now st).fst.sum_ws := by
  show (if (tickChannels cfg smp now st).sum_ws ≠ st.prev_ws
        then (tickChannels cfg smp now st).sum_ws else st.prev_ws) =
      (tickChannels cfg smp now st).sum_ws
  split_ifs with h
  · rfl
  · exact (not_ne_iff.mp h).symm

/-- After a successful tick, the stored previously-reported total
equals the current total. -/
theorem tick_prev_total (cfg : Config) (smp : Samples) (now : Int)
    (st : SysState) :
    (tick cfg (some smp) now st).fst.prev_total =
    (tick cfg (some smp) now st).fst.sum_ohb +
      (tick cfg (some smp) now st).fst.sum_ws := by
  show (if (tickChannels cfg smp now st).sum_ohb +
          (tickChannels cfg smp now st).sum_ws ≠ st.prev_total
        then (tickChannels cfg smp now st).sum_ohb +
          (tickChannels cfg smp now st).sum_ws
        else st.prev_total) =
      (tickChannels cfg smp now st).sum_ohb +
        (tickChannels cfg smp now st).sum_ws
  split_ifs with h
  · rfl
  · exact (not_ne_iff.mp h).symm

/-- A successful tick whose resulting values all match the stored
previously-reported ones issues no `set_value` call. -/
theorem tick_no_change_no_notifs (cfg : Config) (smp : Samples) (now : Int)
    (st : SysState)
    (h1 : (tickChannels cfg smp now st).sum_ohb = st.prev_ohb)
    (h2 : (tickChannels cfg smp now st).sum_ws = st.prev_ws)
    (h3 : (tickChannels cfg smp now st).sum_ohb +
      (tickChannels cfg smp now st).sum_ws = st.prev_total) :
    (tick cfg (some smp) now st).snd = [] := by
  simp [tick, h1, h2, h3]
  omega

/-- The total card is notified exactly when the new total differs from
the stored previously-reported total. -/
theorem tick_notifies_total_iff (cfg : Config) (smp : Samples) (now : Int)
    (st : SysState) :
    ((Display.total,
        (tick cfg (some smp) now st).fst.sum_ohb +
          (tick cfg (some smp) now st).fst.sum_ws)
      ∈ (tick cfg (some smp) now st).snd) ↔
    (tick cfg (some smp) now st).fst.sum_ohb +
      (tick cfg (some smp) now st).fst.sum_ws ≠ st.prev_total := by
  simp only [tick]
  split_ifs <;> simp_all

/-- The OHB card is notified exactly when the new OHB sum differs from
the stored previously-reported one. -/
theorem tick_notifies_ohb_iff (cfg : Config) (smp : Samples) (now : Int)
    (st : SysState) :
    ((Display.ohb, (tick cfg (some smp) now st).fst.sum_ohb)
      ∈ (tick cfg (some smp) now st).snd) ↔
    (tick cfg (some smp) now st).fst.sum_ohb ≠ st.prev_ohb := by
  simp only [tick]
  split_ifs <;> simp_all

/-- The WS card is notified exactly when the new WS sum differs from
the stored previously-reported one. -/
theorem tick_notifies_ws_iff (cfg : Config) (smp : Samples) (now : Int)
    (st : SysState) :
    ((Display.ws, (tick cfg (some smp) now st).fst.sum_ws)
      ∈ (tick cfg (some smp) now st).snd) ↔
    (tick cfg (some smp) now st).fst.sum_ws ≠ st.prev_ws := by
  simp only [tick]
  split_ifs <;> simp_all

/-- Claim C7: on every successful tick each of the three displayed
quantities is sent to its card iff it differs from the value reported
on the previous tick; consequently, a second consecutive tick producing
the identical `(total, sum_ohb, sum_ws)` triple sends zero
notifications. -/
theorem change_only_notification (cfg : Config) (smp1 smp2 : Samples)
    (now1 now2 : Int) (st st1 st2 : SysState)
    (ns1 ns2 : List (Display × Int))
    (h1 : tick cfg (some smp1) now1 st = (st1, ns1))
    (h2 : tick cfg (some smp2) now2 st1 = (st2, ns2))
    (hohb : st2.sum_ohb = st1.sum_ohb) (hws : st2.sum_ws = st1.sum_ws) :
    (((Display.total, st1.sum_ohb + st1.sum_ws) ∈ ns1) ↔
      st1.sum_ohb + st1.sum_ws ≠ st.prev_total) ∧
    (((Display.ohb, st1.sum_ohb) ∈ ns1) ↔ st1.sum_ohb ≠ st.prev_ohb) ∧
    (((Display.ws, st1.sum_ws) ∈ ns1) ↔ st1.sum_ws ≠ st.prev_ws) ∧
    ns2 = [] := by
  have hst1 : st1 = (tick cfg (some smp1) now1 st).fst := by rw [h1]
  have hns1 : ns1 = (tick cfg (some smp1) now1 st).snd := by rw [h1]
  subst hst1 hns1
  have hst2 : st2 = (tick cfg (some smp2) now2
      (tick cfg (some smp1) now1 st).fst).fst := by rw [h2]
  have hns2 : ns2 = (tick cfg (some smp2) now2
      (tick cfg (some smp1) now1 st).fst).snd := by rw [h2]
  subst hst2 hns2
  refine ⟨tick_notifies_total_iff cfg smp1 now1 st,
    tick_notifies_ohb_iff cfg smp1 now1 st,
    tick_notifies_ws_iff cfg smp1 now1 st,
    tick_no_change_no_notifs cfg smp2 now2 _ ?_ ?_ ?_⟩
  · show (tick cfg (some smp2) now2 (tick cfg (some smp1) now1 st).fst).fst.sum_ohb =
      (tick cfg (some smp1) now1 st).fst.prev_ohb
    rw [tick_prev_ohb cfg smp1 now1 st]
    exact hohb
  · show (tick cfg (some smp2) now2 (tick cfg (some smp1) now1 st).fst).fst.sum_ws =
      (tick cfg (some smp1) now1 st).fst.prev_ws
    rw [tick_prev_ws cfg smp1 now1 st]
    exact hws
  · show (tick cfg (some smp2) now2 (tick cfg (some smp1) now1 st).fst).fst.sum_ohb +
      (tick cfg (some smp2) now2 (tick cfg (some smp1) now1 st).fst).fst.sum_ws =
      (tick cfg (some smp1) now1 st).fst.prev_total
    rw [tick_prev_total cfg smp1 now1 st, hohb, hws]

/-- Concrete two-tick scenario used to witness the notification claim. -/
def cfgW : Config := ⟨1000, 1000, 1000, 1000⟩

/-- All four sensors reading low. -/
def smpW : Samples := ⟨false, false, false, false⟩

/-- State after the first witness tick. -/
def st1W : SysState := (tick cfgW (some smpW) 0 initState).fst

/-- Notifications of the first witness tick. -/
def ns1W : List (Display × Int) := (tick cfgW (some smpW) 0 initState).snd

/-- State after the second witness tick. -/
def st2W : SysState := (tick cfgW (some smpW) 10 st1W).fst

/-- Notifications of the second witness tick. -/
def ns2W : List (Display × Int) := (tick cfgW (some smpW) 10 st1W).snd

theorem change_only_notification_witness :
    (((Display.total, st1W.sum_ohb + st1W.sum_ws) ∈ ns1W) ↔
      st1W.sum_ohb + st1W.sum_ws ≠ initState.prev_total) ∧
    (((Display.ohb, st1W.sum_ohb) ∈ ns1W) ↔ st1W.sum_ohb ≠ initState.prev_ohb) ∧
    (((Display.ws, st1W.sum_ws) ∈ ns1W) ↔ st1W.sum_ws ≠ initState.prev_ws) ∧
    ns2W = [] :=
  change_only_notification cfgW smpW smpW 0 10 initState st1W st2W ns1W ns2W
    rfl rfl (by decide) (by decide)

end WSBC
